import Mathlib

/-!
# Temporary firewall rule step (`builder/googlecompute/step_create_firewall_rule.go`)

A shallow embedding of `StepCreateFirewallRule.Run` and
`StepCreateFirewallRule.Cleanup`.

* The state bag is a map from string keys to dynamically typed values;
  a failed type assertion (`state.Get(k).(T)` on a missing or ill-typed entry)
  is a Go panic and is modelled as `Except.error`.
* The driver and the `select` between the completion channel and
  `time.After(config.stateTimeout)` belong to the environment: every call of
  `Run` / `Cleanup` receives the reply the driver gives to the single request
  it makes, and which arm of the `select` fires.
* Every externally visible effect (ui output, driver request, `state.Put`) is
  appended to a trace, in program order.
-/

namespace Googlecompute

/-- The fields of `Config` read by the step. `stateTimeout` is a
`time.Duration` (nanoseconds). -/
structure Config where
  InstanceName : String
  Network : String
  Tags : List String
  stateTimeout : Int
deriving DecidableEq, Repr

/-- The value `compute.FirewallAllowed`. -/
structure FirewallAllowed where
  IPProtocol : String
  Ports : List String
deriving DecidableEq, Repr

/-- The request handed to `driver.CreateFirewallRule`. -/
structure FirewallRule where
  Allowed : FirewallAllowed
  Description : String
  Name : String
  Network : String
  SourceRanges : List String
  TargetTags : List String
deriving DecidableEq, Repr

/-- A dynamically typed entry of the state bag (`interface{}`).
`config` is a non-nil `*Config`, `driver` and `ui` are values implementing
`Driver` and `packer.Ui`, `str` is a Go `string`, `err` is an `error` given
by its `Error()` text, and `other` is a value of any other type. -/
inductive Value where
  | config (c : Config)
  | driver (handle : Nat)
  | ui
  | str (s : String)
  | err (text : String)
  | other (tag : Nat)
deriving DecidableEq, Repr

/-- The state bag `multistep.StateBag`: a map from keys to values. -/
def StateBag : Type := String → Option Value

/-- The empty bag. -/
def StateBag.empty : StateBag := fun _ => none

/-- The lookup `state.GetOk(k)`: `none` when the key is absent. -/
def StateBag.GetOk (state : StateBag) (k : String) : Option Value := state k

/-- The lookup `state.Get(k)`: the nil interface (`none`) when the key is absent. -/
def StateBag.Get (state : StateBag) (k : String) : Option Value := state k

/-- The update `state.Put(k, v)`. -/
def StateBag.Put (state : StateBag) (k : String) (v : Value) : StateBag :=
  fun k' => if k' = k then some v else state k'

/-- The result `multistep.StepAction`. -/
inductive StepAction where
  | ActionContinue
  | ActionHalt
deriving DecidableEq, Repr

/-- One externally visible effect of the step. -/
inductive Event where
  | say (text : String)
  | message (text : String)
  | error (text : String)
  | createFirewallRule (rule : FirewallRule)
  | deleteFirewallRule (name : String)
  | put (key : String) (v : Value)
deriving DecidableEq, Repr

/-- What a driver method returns: an immediate error, or a channel together
with what that channel yields when it is read (`none` is the nil error). -/
inductive DriverReply where
  | rejected (cause : String)
  | accepted (errCh : Option String)
deriving DecidableEq, Repr

/-- Which case of the `select` is taken. -/
inductive SelectArm where
  | signal
  | timer
deriving DecidableEq, Repr

/-- The environment of one call: the driver's reply to the request and the
arm of the `select` that fires should the step wait. -/
structure Env where
  reply : DriverReply
  arm : SelectArm
deriving DecidableEq, Repr

/-- A failed type assertion, named after the assertion that panics. -/
inductive Fault where
  | configAssertion
  | driverAssertion
  | uiAssertion
  | nameAssertion
deriving DecidableEq, Repr

/-- The step `StepCreateFirewallRule`. -/
structure StepCreateFirewallRule where
  Debug : Bool
deriving DecidableEq, Repr

/-- What `Run` leaves behind when it returns. -/
structure RunResult where
  action : StepAction
  state : StateBag
  trace : List Event

/-- What `Cleanup` leaves behind when it returns. -/
structure CleanupResult where
  state : StateBag
  trace : List Event

/-- The statement
`select { case err = <-errCh: ; case <-time.After(d): err = errors.New(text) }`. -/
def selectWait (errCh : Option String) (_d : Int) (arm : SelectArm) (text : String) :
    Option String :=
  match arm with
  | .signal => errCh
  | .timer => some text

/-- The value `fmt.Sprintf("%s-temporary-packer", config.InstanceName)`. -/
def ruleName (config : Config) : String :=
  config.InstanceName ++ "-temporary-packer"

/-- The literal `&FirewallRule{...}` built by `Run`. -/
def firewallRule (config : Config) (name : String) : FirewallRule :=
  { Allowed := { IPProtocol := "tcp", Ports := ["22"] }
    Description := "New temporary firewall rule created by Packer"
    Name := name
    Network := config.Network
    SourceRanges := ["0.0.0.0/0"]
    TargetTags := config.Tags }

/-- The error after `driver.CreateFirewallRule` and the wait (lines 27-46),
with the trace they add. -/
def createAndWait (config : Config) (env : Env) (name : String) :
    Option String × List Event :=
  let call := Event.createFirewallRule (firewallRule config name)
  match env.reply with
  | .rejected cause => (some cause, [call])
  | .accepted errCh =>
    (selectWait errCh config.stateTimeout env.arm
        "time out while waiting for firewall rule to create",
      [call, Event.message "Waiting for creation operation to complete..."])

/-- The body of `Run` once the three handles have been fetched. -/
def runBody (s : StepCreateFirewallRule) (env : Env) (state : StateBag)
    (config : Config) : RunResult :=
  let t0 := [Event.say "Creating a packer filewall rule..."]
  let name := ruleName config
  let (err, t1) := createAndWait config env name
  match err with
  | some cause =>
    let text := "Error creating firewall rule: " ++ cause
    { action := .ActionHalt
      state := state.Put "error" (.err text)
      trace := t0 ++ t1 ++ [Event.put "error" (.err text), Event.error text] }
  | none =>
    let t2 := [Event.message "Firewall rule has been created!"]
    let t3 :=
      if s.Debug then
        if name ≠ "" then
          [Event.message ("Firewall rule: " ++ name ++ " created")]
        else []
      else []
    { action := .ActionContinue
      state := state.Put "firewall_rule_name" (.str name)
      trace := t0 ++ t1 ++ t2 ++ t3 ++ [Event.put "firewall_rule_name" (.str name)] }

/-- The method `StepCreateFirewallRule.Run`. -/
def Run (s : StepCreateFirewallRule) (env : Env) (state : StateBag) :
    Except Fault RunResult :=
  match state.Get "config" with
  | some (.config config) =>
    match state.Get "driver" with
    | some (.driver _) =>
      match state.Get "ui" with
      | some .ui => .ok (runBody s env state config)
      | _ => .error .uiAssertion
    | _ => .error .driverAssertion
  | _ => .error .configAssertion

/-- The error after `driver.DeleteFirewallRule` and the wait (lines 85-93). -/
def deleteAndWait (config : Config) (env : Env) : Option String :=
  match env.reply with
  | .rejected cause => some cause
  | .accepted errCh =>
    selectWait errCh config.stateTimeout env.arm
      "time out while waiting for firewall rule to delete"

/-- The text of the error message of `Cleanup` (lines 96-99). -/
def deleteErrorText (name cause : String) : String :=
  "Error deleting firewall rule. Please delete it manually.\n\n" ++
    "Name: " ++ name ++ "\n" ++ "Error: " ++ cause

/-- The body of `Cleanup` once the name and the three handles are fetched. -/
def cleanupBody (env : Env) (state : StateBag) (config : Config) (name : String) :
    CleanupResult :=
  let t0 := [Event.say "Deleting fireall rule...", Event.deleteFirewallRule name]
  let t1 :=
    match deleteAndWait config env with
    | some cause => [Event.error (deleteErrorText name cause)]
    | none => []
  { state := state.Put "firewall_rule_name" (.str "")
    trace := t0 ++ t1 ++ [Event.message "Firewall rule has been deleted!",
      Event.put "firewall_rule_name" (.str "")] }

/-- The method `StepCreateFirewallRule.Cleanup`. -/
def Cleanup (_s : StepCreateFirewallRule) (env : Env) (state : StateBag) :
    Except Fault CleanupResult :=
  match state.GetOk "firewall_rule_name" with
  | none => .ok { state := state, trace := [] }
  | some (.str name) =>
    if name = "" then .ok { state := state, trace := [] }
    else
      match state.Get "config" with
      | some (.config config) =>
        match state.Get "driver" with
        | some (.driver _) =>
          match state.Get "ui" with
          | some .ui => .ok (cleanupBody env state config name)
          | _ => .error .uiAssertion
        | _ => .error .driverAssertion
      | _ => .error .configAssertion
  | some _ => .error .nameAssertion

/-! ## Observations on traces and contexts -/

/-- The driver requests of a trace, in order. -/
def driverCalls (t : List Event) : List Event :=
  t.filter fun e =>
    match e with
    | .createFirewallRule _ => true
    | .deleteFirewallRule _ => true
    | _ => false

/-- The texts of the error-level messages of a trace, in order. -/
def errorMessages (t : List Event) : List String :=
  t.filterMap fun e =>
    match e with
    | .error text => some text
    | _ => none

/-- The ui output of a trace (`Say`, `Message`, `Error`), in order. -/
def uiOutput (t : List Event) : List Event :=
  t.filter fun e =>
    match e with
    | .say _ => true
    | .message _ => true
    | .error _ => true
    | _ => false

/-- The keys written by `state.Put` in a trace, in order. -/
def keysWritten (t : List Event) : List String :=
  t.filterMap fun e =>
    match e with
    | .put key _ => some key
    | _ => none

/-- The context holds the configuration, a driver and a ui under the keys
that `Run` and `Cleanup` fetch them from. -/
def Ready (state : StateBag) (config : Config) : Prop :=
  state "config" = some (.config config) ∧
    (∃ h, state "driver" = some (.driver h)) ∧ state "ui" = some .ui

/-- A context with the three handles and nothing else. -/
def baseContext (config : Config) : StateBag :=
  ((StateBag.empty.Put "config" (.config config)).Put "driver" (.driver 0)).Put "ui" .ui

/-- A sample configuration. -/
def sampleConfig : Config :=
  { InstanceName := "img", Network := "default", Tags := ["build"], stateTimeout := 5000000000 }

/-- The three ways a request can fail: the driver rejects it at once, the
channel yields an error, or the timer fires first (the cause is then the
synthetic error with text `timeoutText`). -/
def FailsWith (env : Env) (timeoutText cause : String) : Prop :=
  env.reply = .rejected cause ∨
    (env.reply = .accepted (some cause) ∧ env.arm = .signal) ∨
    ((∃ errCh, env.reply = .accepted errCh) ∧ env.arm = .timer ∧ cause = timeoutText)

/-- The request is accepted and the channel yields nil before the timer fires. -/
def Succeeds (env : Env) : Prop :=
  env.reply = .accepted none ∧ env.arm = .signal

/-- A context with the three handles and a stored rule name. -/
def contextWithRule (config : Config) (name : String) : StateBag :=
  (baseContext config).Put "firewall_rule_name" (.str name)

/-- The text `part` occurs in the text `text`. -/
def Occurs (part text : String) : Prop :=
  part.data <:+: text.data

/-- A context with the configuration and a driver, and no ui. -/
def contextWithoutUi : StateBag :=
  (StateBag.empty.Put "config" (.config sampleConfig)).Put "driver" (.driver 0)

/-! ## Basic facts -/

theorem ready_baseContext (config : Config) : Ready (baseContext config) config := by
  refine ⟨?_, ⟨0, ?_⟩, ?_⟩ <;> simp [baseContext, StateBag.Put, StateBag.empty]

theorem Run_of_ready (s : StepCreateFirewallRule) (env : Env) (state : StateBag)
    (config : Config) (h : Ready state config) :
    Run s env state = .ok (runBody s env state config) := by
  obtain ⟨hc, ⟨d, hd⟩, hu⟩ := h
  simp [Run, StateBag.Get, hc, hd, hu]

theorem Cleanup_of_ready (s : StepCreateFirewallRule) (env : Env) (state : StateBag)
    (config : Config) (name : String) (h : Ready state config)
    (hn : state "firewall_rule_name" = some (.str name)) (hne : name ≠ "") :
    Cleanup s env state = .ok (cleanupBody env state config name) := by
  obtain ⟨hc, ⟨d, hd⟩, hu⟩ := h
  simp [Cleanup, StateBag.Get, StateBag.GetOk, hc, hd, hu, hn, hne]

theorem ruleName_ne_empty (config : Config) : ruleName config ≠ "" := by
  intro h
  have hl := congrArg String.length h
  simp only [ruleName, String.length_append] at hl
  have h17 : "-temporary-packer".length = 17 := by decide
  have h0 : "".length = 0 := by decide
  omega

/-- A reply either succeeds or fails with exactly one cause. -/
theorem succeeds_or_fails (env : Env) (timeoutText : String) :
    Succeeds env ∨ ∃ cause, FailsWith env timeoutText cause := by
  obtain ⟨reply, arm⟩ := env
  cases reply with
  | rejected c => exact Or.inr ⟨c, Or.inl rfl⟩
  | accepted ch =>
    cases arm with
    | timer => exact Or.inr ⟨timeoutText, Or.inr (Or.inr ⟨⟨ch, rfl⟩, rfl, rfl⟩)⟩
    | signal =>
      cases ch with
      | none => exact Or.inl ⟨rfl, rfl⟩
      | some c => exact Or.inr ⟨c, Or.inr (Or.inl ⟨rfl, rfl⟩)⟩

theorem not_succeeds_of_fails (env : Env) (timeoutText cause : String)
    (h : FailsWith env timeoutText cause) : ¬ Succeeds env := by
  rintro ⟨h1, h2⟩
  rcases h with h | ⟨h, _⟩ | ⟨_, h, _⟩
  · rw [h1] at h; cases h
  · rw [h1] at h; cases h
  · rw [h2] at h; cases h

theorem createAndWait_fails (config : Config) (env : Env) (name cause : String)
    (h : FailsWith env "time out while waiting for firewall rule to create" cause) :
    createAndWait config env name =
      (some cause, Event.createFirewallRule (firewallRule config name) ::
        (match env.reply with
          | .rejected _ => []
          | .accepted _ => [Event.message "Waiting for creation operation to complete..."])) := by
  obtain ⟨reply, arm⟩ := env
  rcases h with h | ⟨h, h'⟩ | ⟨⟨ch, h⟩, h', hc⟩
  · simp only at h; subst h; rfl
  · simp only at h h'; subst h; subst h'; rfl
  · simp only at h h'; subst h; subst h'; subst hc; rfl

theorem createAndWait_succeeds (config : Config) (env : Env) (name : String)
    (h : Succeeds env) :
    createAndWait config env name =
      (none, [Event.createFirewallRule (firewallRule config name),
        Event.message "Waiting for creation operation to complete..."]) := by
  obtain ⟨reply, arm⟩ := env
  obtain ⟨h, h'⟩ := h
  simp only at h h'; subst h; subst h'; rfl

theorem deleteAndWait_fails (config : Config) (env : Env) (cause : String)
    (h : FailsWith env "time out while waiting for firewall rule to delete" cause) :
    deleteAndWait config env = some cause := by
  obtain ⟨reply, arm⟩ := env
  rcases h with h | ⟨h, h'⟩ | ⟨⟨ch, h⟩, h', hc⟩
  · simp only at h; subst h; rfl
  · simp only at h h'; subst h; subst h'; rfl
  · simp only at h h'; subst h; subst h'; subst hc; rfl

theorem deleteAndWait_succeeds (config : Config) (env : Env) (h : Succeeds env) :
    deleteAndWait config env = none := by
  obtain ⟨reply, arm⟩ := env
  obtain ⟨h, h'⟩ := h
  simp only at h h'; subst h; subst h'; rfl

/-- The result of `Run` on a failing request. -/
theorem runBody_fails (s : StepCreateFirewallRule) (env : Env) (state : StateBag)
    (config : Config) (cause : String)
    (h : FailsWith env "time out while waiting for firewall rule to create" cause) :
    runBody s env state config =
      { action := .ActionHalt
        state := state.Put "error" (.err ("Error creating firewall rule: " ++ cause))
        trace := [Event.say "Creating a packer filewall rule..."] ++
          (Event.createFirewallRule (firewallRule config (ruleName config)) ::
            (match env.reply with
              | .rejected _ => []
              | .accepted _ =>
                [Event.message "Waiting for creation operation to complete..."])) ++
          [Event.put "error" (.err ("Error creating firewall rule: " ++ cause)),
            Event.error ("Error creating firewall rule: " ++ cause)] } := by
  simp only [runBody, createAndWait_fails config env _ cause h]

/-- The result of `Run` on a request that succeeds. -/
theorem runBody_succeeds (s : StepCreateFirewallRule) (env : Env) (state : StateBag)
    (config : Config) (h : Succeeds env) :
    runBody s env state config =
      { action := .ActionContinue
        state := state.Put "firewall_rule_name" (.str (ruleName config))
        trace := [Event.say "Creating a packer filewall rule...",
            Event.createFirewallRule (firewallRule config (ruleName config)),
            Event.message "Waiting for creation operation to complete...",
            Event.message "Firewall rule has been created!"] ++
          (if s.Debug then
            [Event.message ("Firewall rule: " ++ ruleName config ++ " created")] else []) ++
          [Event.put "firewall_rule_name" (.str (ruleName config))] } := by
  simp [runBody, createAndWait_succeeds config env _ h, ruleName_ne_empty]

/-! ## Run: failure -/

/-- C1: in a context holding the configuration, the driver and the ui, every
create failure (immediate rejection, provider error on the channel, or the
timer firing first) makes `Run` return `ActionHalt`, store under "error" the
error "Error creating firewall rule: " followed by the cause, emit exactly
that text as its only error-level message, and write only the "error" key:
"firewall_rule_name" and every other key are as before the call. -/
theorem Run_failure_halts (s : StepCreateFirewallRule) (env : Env) (state : StateBag)
    (config : Config) (cause : String) (hready : Ready state config)
    (hfail : FailsWith env "time out while waiting for firewall rule to create" cause) :
    ∃ r, Run s env state = .ok r ∧
      r.action = .ActionHalt ∧
      r.state "error" = some (.err ("Error creating firewall rule: " ++ cause)) ∧
      errorMessages r.trace = ["Error creating firewall rule: " ++ cause] ∧
      keysWritten r.trace = ["error"] ∧
      r.state "firewall_rule_name" = state "firewall_rule_name" ∧
      ∀ k, k ≠ "error" → r.state k = state k := by
  refine ⟨_, Run_of_ready s env state config hready, ?_⟩
  rw [runBody_fails s env state config cause hfail]
  refine ⟨rfl, ?_, ?_, ?_, ?_, fun k hk => ?_⟩
  · simp [StateBag.Put]
  · cases env.reply <;> simp [errorMessages]
  · cases env.reply <;> simp [keysWritten]
  · simp [StateBag.Put]
  · simp [StateBag.Put, hk]

theorem Run_failure_halts_witness :
    Ready (baseContext sampleConfig) sampleConfig ∧
    FailsWith ⟨.accepted (some "quota exceeded"), .signal⟩
      "time out while waiting for firewall rule to create" "quota exceeded" ∧
    ∃ r, Run ⟨false⟩ ⟨.accepted (some "quota exceeded"), .signal⟩
        (baseContext sampleConfig) = .ok r ∧
      r.action = .ActionHalt ∧
      r.state "error" = some (.err ("Error creating firewall rule: " ++ "quota exceeded")) ∧
      errorMessages r.trace = ["Error creating firewall rule: " ++ "quota exceeded"] ∧
      keysWritten r.trace = ["error"] ∧
      r.state "firewall_rule_name" = baseContext sampleConfig "firewall_rule_name" ∧
      ∀ k, k ≠ "error" → r.state k = baseContext sampleConfig k :=
  ⟨ready_baseContext _, Or.inr (Or.inl ⟨rfl, rfl⟩),
    Run_failure_halts ⟨false⟩ ⟨.accepted (some "quota exceeded"), .signal⟩
      (baseContext sampleConfig) sampleConfig "quota exceeded" (ready_baseContext _)
      (Or.inr (Or.inl ⟨rfl, rfl⟩))⟩

/-! ## Run: success -/

/-- C2: in a context holding the configuration, the driver and the ui, `Run`
returns `ActionContinue` exactly when the driver accepts the request and the
channel yields nil before the timer fires. Exactly in that case `Run` writes
"firewall_rule_name"; the value written is the instance name followed by
"-temporary-packer", which is never empty; the write is the last effect of
the call and follows the create request; and "error" is not written. In every
other case "firewall_rule_name" is not written and keeps its value; so a
context that did not hold that name before holds it afterwards exactly when
the create succeeded. -/
theorem Run_continue_iff (s : StepCreateFirewallRule) (env : Env) (state : StateBag)
    (config : Config) (hready : Ready state config) :
    ∃ r, Run s env state = .ok r ∧
      (r.action = .ActionContinue ↔ Succeeds env) ∧
      ("firewall_rule_name" ∈ keysWritten r.trace ↔ Succeeds env) ∧
      (Succeeds env →
        r.state "firewall_rule_name" =
          some (.str (config.InstanceName ++ "-temporary-packer")) ∧
        config.InstanceName ++ "-temporary-packer" ≠ "" ∧
        (∃ before, r.trace = before ++
            [Event.put "firewall_rule_name"
              (.str (config.InstanceName ++ "-temporary-packer"))] ∧
          driverCalls before ≠ [] ∧ keysWritten before = []) ∧
        "error" ∉ keysWritten r.trace ∧
        r.state "error" = state "error") ∧
      (¬ Succeeds env →
        r.state "firewall_rule_name" = state "firewall_rule_name") ∧
      (state "firewall_rule_name" ≠
          some (.str (config.InstanceName ++ "-temporary-packer")) →
        (r.state "firewall_rule_name" =
          some (.str (config.InstanceName ++ "-temporary-packer")) ↔ Succeeds env)) := by
  refine ⟨_, Run_of_ready s env state config hready, ?_⟩
  rcases succeeds_or_fails env "time out while waiting for firewall rule to create" with
    hs | ⟨cause, hf⟩
  · rw [runBody_succeeds s env state config hs]
    refine ⟨⟨fun _ => hs, fun _ => rfl⟩, ⟨fun _ => hs, fun _ => ?_⟩, fun _ => ?_,
      fun hn => absurd hs hn, fun _ => ⟨fun _ => hs, fun _ => ?_⟩⟩
    · cases s.Debug <;> simp [keysWritten]
    · refine ⟨?_, ruleName_ne_empty config, ⟨_, rfl, ?_, ?_⟩, ?_, ?_⟩
      · simp [StateBag.Put, ruleName]
      · cases s.Debug <;> simp [driverCalls]
      · cases s.Debug <;> simp [keysWritten]
      · cases s.Debug <;> simp [keysWritten]
      · simp [StateBag.Put]
    · simp [StateBag.Put, ruleName]
  · have hns := not_succeeds_of_fails env _ cause hf
    rw [runBody_fails s env state config cause hf]
    refine ⟨⟨fun h => ?_, fun h => absurd h hns⟩, ⟨fun h => ?_, fun h => absurd h hns⟩,
      fun h => absurd h hns, fun _ => by simp [StateBag.Put],
      fun hpre => ⟨fun h => ?_, fun h => absurd h hns⟩⟩
    · cases h
    · exfalso
      revert h
      cases env.reply <;> simp [keysWritten]
    · exfalso
      apply hpre
      rw [← h]
      simp [StateBag.Put]

theorem Run_continue_iff_witness :
    Ready (baseContext sampleConfig) sampleConfig ∧
    ∃ r, Run ⟨true⟩ ⟨.accepted none, .signal⟩ (baseContext sampleConfig) = .ok r ∧
      r.action = .ActionContinue ∧
      r.state "firewall_rule_name" = some (.str "img-temporary-packer") := by
  refine ⟨ready_baseContext _, ?_⟩
  obtain ⟨r, hr, hc, _, hs, _⟩ :=
    Run_continue_iff ⟨true⟩ ⟨.accepted none, .signal⟩ (baseContext sampleConfig)
      sampleConfig (ready_baseContext _)
  exact ⟨r, hr, hc.2 ⟨rfl, rfl⟩, (hs ⟨rfl, rfl⟩).1⟩

/-! ## Run: the request -/

/-- C3: in a context holding the configuration, the driver and the ui, and
whatever the driver answers, `Run` makes exactly one driver request, a create
request, whose rule has the name instance-name ++ "-temporary-packer",
protocol "tcp", ports ["22"], source ranges ["0.0.0.0/0"], the target tags
and the network of the configuration. -/
theorem Run_submits_one_rule (s : StepCreateFirewallRule) (env : Env) (state : StateBag)
    (config : Config) (hready : Ready state config) :
    ∃ r, Run s env state = .ok r ∧
      driverCalls r.trace =
        [Event.createFirewallRule
          { Allowed := { IPProtocol := "tcp", Ports := ["22"] }
            Description := "New temporary firewall rule created by Packer"
            Name := config.InstanceName ++ "-temporary-packer"
            Network := config.Network
            SourceRanges := ["0.0.0.0/0"]
            TargetTags := config.Tags }] := by
  refine ⟨_, Run_of_ready s env state config hready, ?_⟩
  rcases succeeds_or_fails env "time out while waiting for firewall rule to create" with
    hs | ⟨cause, hf⟩
  · rw [runBody_succeeds s env state config hs]
    cases s.Debug <;> simp [driverCalls, firewallRule, ruleName]
  · rw [runBody_fails s env state config cause hf]
    cases env.reply <;> simp [driverCalls, firewallRule, ruleName]

theorem Run_submits_one_rule_witness :
    Ready (baseContext sampleConfig) sampleConfig ∧
    ∃ r, Run ⟨false⟩ ⟨.rejected "bad request", .signal⟩ (baseContext sampleConfig) = .ok r ∧
      driverCalls r.trace =
        [Event.createFirewallRule
          { Allowed := { IPProtocol := "tcp", Ports := ["22"] }
            Description := "New temporary firewall rule created by Packer"
            Name := "img" ++ "-temporary-packer"
            Network := "default"
            SourceRanges := ["0.0.0.0/0"]
            TargetTags := ["build"] }] :=
  ⟨ready_baseContext _,
    Run_submits_one_rule ⟨false⟩ ⟨.rejected "bad request", .signal⟩
      (baseContext sampleConfig) sampleConfig (ready_baseContext _)⟩

/-! ## Cleanup: nothing to delete -/

/-- C4: when "firewall_rule_name" is absent or holds the empty string,
`Cleanup` returns with an empty trace (no driver request, no ui output, no
write) and the context it was given; nothing is assumed about the other
keys, so this also holds without configuration, driver or ui. -/
theorem Cleanup_noop_without_identifier (s : StepCreateFirewallRule) (env : Env)
    (state : StateBag)
    (h : state "firewall_rule_name" = none ∨ state "firewall_rule_name" = some (.str "")) :
    Cleanup s env state = .ok { state := state, trace := [] } := by
  rcases h with h | h <;> simp [Cleanup, StateBag.GetOk, h]

theorem Cleanup_noop_without_identifier_witness :
    (StateBag.empty.Put "firewall_rule_name" (.str "")) "config" = none ∧
    (StateBag.empty.Put "firewall_rule_name" (.str "")) "driver" = none ∧
    (StateBag.empty.Put "firewall_rule_name" (.str "")) "ui" = none ∧
    Cleanup ⟨false⟩ ⟨.rejected "unreachable", .timer⟩
        (StateBag.empty.Put "firewall_rule_name" (.str "")) =
      .ok { state := StateBag.empty.Put "firewall_rule_name" (.str ""), trace := [] } :=
  ⟨rfl, rfl, rfl,
    Cleanup_noop_without_identifier ⟨false⟩ ⟨.rejected "unreachable", .timer⟩
      (StateBag.empty.Put "firewall_rule_name" (.str "")) (Or.inr rfl)⟩

/-! ## Cleanup: deleting the rule -/

theorem ready_contextWithRule (config : Config) (name : String) :
    Ready (contextWithRule config name) config := by
  refine ⟨?_, ⟨0, ?_⟩, ?_⟩ <;>
    simp [contextWithRule, baseContext, StateBag.Put, StateBag.empty]

theorem contextWithRule_name (config : Config) (name : String) :
    contextWithRule config name "firewall_rule_name" = some (.str name) := by
  simp [contextWithRule, StateBag.Put]

theorem occurs_name (name cause : String) : Occurs name (deleteErrorText name cause) :=
  ⟨"Error deleting firewall rule. Please delete it manually.\n\nName: ".data,
    "\nError: ".data ++ cause.data, by simp [deleteErrorText, String.data_append]⟩

theorem occurs_cause (name cause : String) : Occurs cause (deleteErrorText name cause) :=
  ⟨"Error deleting firewall rule. Please delete it manually.\n\nName: ".data ++
      name.data ++ "\nError: ".data, [], by simp [deleteErrorText, String.data_append]⟩

theorem occurs_instruction (name cause : String) :
    Occurs "Please delete it manually." (deleteErrorText name cause) :=
  ⟨"Error deleting firewall rule. ".data,
    "\n\nName: ".data ++ name.data ++ "\nError: ".data ++ cause.data,
    by simp [deleteErrorText, String.data_append]⟩

/-- C5: in a context holding the configuration, the driver and the ui, whose
"firewall_rule_name" holds a non-empty string `id`, and whatever the driver
answers and whichever arm of the wait fires, `Cleanup` makes exactly one
driver request, the deletion of `id`; afterwards "firewall_rule_name" holds
the empty string, and the last ui output of the call is the completion
message "Firewall rule has been deleted!". -/
theorem Cleanup_deletes_and_clears (s : StepCreateFirewallRule) (env : Env)
    (state : StateBag) (config : Config) (id : String) (hready : Ready state config)
    (hid : state "firewall_rule_name" = some (.str id)) (hne : id ≠ "") :
    ∃ r, Cleanup s env state = .ok r ∧
      driverCalls r.trace = [Event.deleteFirewallRule id] ∧
      r.state "firewall_rule_name" = some (.str "") ∧
      (uiOutput r.trace).getLast? =
        some (Event.message "Firewall rule has been deleted!") := by
  refine ⟨_, Cleanup_of_ready s env state config id hready hid hne, ?_, ?_, ?_⟩
  · simp only [cleanupBody]
    cases deleteAndWait config env <;> simp [driverCalls]
  · simp [cleanupBody, StateBag.Put]
  · simp only [cleanupBody]
    cases deleteAndWait config env <;> simp [uiOutput]

theorem Cleanup_deletes_and_clears_witness :
    Ready (contextWithRule sampleConfig "img-temporary-packer") sampleConfig ∧
    contextWithRule sampleConfig "img-temporary-packer" "firewall_rule_name" =
      some (.str "img-temporary-packer") ∧
    "img-temporary-packer" ≠ "" ∧
    ∃ r, Cleanup ⟨false⟩ ⟨.accepted (some "rule in use"), .signal⟩
        (contextWithRule sampleConfig "img-temporary-packer") = .ok r ∧
      driverCalls r.trace = [Event.deleteFirewallRule "img-temporary-packer"] ∧
      r.state "firewall_rule_name" = some (.str "") ∧
      (uiOutput r.trace).getLast? =
        some (Event.message "Firewall rule has been deleted!") :=
  ⟨ready_contextWithRule _ _, contextWithRule_name _ _, by decide,
    Cleanup_deletes_and_clears ⟨false⟩ ⟨.accepted (some "rule in use"), .signal⟩
      (contextWithRule sampleConfig "img-temporary-packer") sampleConfig
      "img-temporary-packer" (ready_contextWithRule _ _) (contextWithRule_name _ _)
      (by decide)⟩

/-! ## Cleanup: failure is reported, not propagated -/

/-- C7: in a context holding the configuration, the driver and the ui, whose
"firewall_rule_name" holds a non-empty string `id`, `Cleanup` returns
normally, writes no key but "firewall_rule_name" (so never "error") and
changes no other key. If the deletion fails with cause `c` (immediate
rejection, provider error, or the timer firing first), exactly one
error-level message is emitted; its text is "Error deleting firewall rule.
Please delete it manually.", a blank line, "Name: " ++ id, a newline and
"Error: " ++ c, so `id`, `c` and the instruction all occur in it. If the
deletion succeeds, no error-level message is emitted. -/
theorem Cleanup_failure_isolated (s : StepCreateFirewallRule) (env : Env)
    (state : StateBag) (config : Config) (id : String) (hready : Ready state config)
    (hid : state "firewall_rule_name" = some (.str id)) (hne : id ≠ "") :
    ∃ r, Cleanup s env state = .ok r ∧
      keysWritten r.trace = ["firewall_rule_name"] ∧
      "error" ∉ keysWritten r.trace ∧
      (∀ k, k ≠ "firewall_rule_name" → r.state k = state k) ∧
      (∀ c, FailsWith env "time out while waiting for firewall rule to delete" c →
        ∃ text, errorMessages r.trace = [text] ∧
          text = "Error deleting firewall rule. Please delete it manually.\n\nName: " ++
            id ++ "\nError: " ++ c ∧
          Occurs id text ∧ Occurs c text ∧ Occurs "Please delete it manually." text) ∧
      (Succeeds env → errorMessages r.trace = []) := by
  refine ⟨_, Cleanup_of_ready s env state config id hready hid hne, ?_, ?_,
    fun k hk => ?_, fun c hc => ?_, fun hs => ?_⟩
  · simp only [cleanupBody]
    cases deleteAndWait config env <;> simp [keysWritten]
  · simp only [cleanupBody]
    cases deleteAndWait config env <;> simp [keysWritten]
  · simp [cleanupBody, StateBag.Put, hk]
  · refine ⟨deleteErrorText id c, ?_, ?_, occurs_name id c, occurs_cause id c,
      occurs_instruction id c⟩
    · simp [cleanupBody, deleteAndWait_fails config env c hc, errorMessages]
    · simp [deleteErrorText, String.append_assoc]
  · simp [cleanupBody, deleteAndWait_succeeds config env hs, errorMessages]

theorem Cleanup_failure_isolated_witness :
    Ready (contextWithRule sampleConfig "img-temporary-packer") sampleConfig ∧
    contextWithRule sampleConfig "img-temporary-packer" "firewall_rule_name" =
      some (.str "img-temporary-packer") ∧
    "img-temporary-packer" ≠ "" ∧
    ∃ r, Cleanup ⟨false⟩ ⟨.accepted none, .timer⟩
        (contextWithRule sampleConfig "img-temporary-packer") = .ok r ∧
      errorMessages r.trace =
        ["Error deleting firewall rule. Please delete it manually.\n\nName: " ++
          "img-temporary-packer" ++ "\nError: " ++
          "time out while waiting for firewall rule to delete"] ∧
      "error" ∉ keysWritten r.trace := by
  refine ⟨ready_contextWithRule _ _, contextWithRule_name _ _, by decide, ?_⟩
  obtain ⟨r, hr, _, hw, _, hf, _⟩ :=
    Cleanup_failure_isolated ⟨false⟩ ⟨.accepted none, .timer⟩
      (contextWithRule sampleConfig "img-temporary-packer") sampleConfig
      "img-temporary-packer" (ready_contextWithRule _ _) (contextWithRule_name _ _)
      (by decide)
  obtain ⟨text, ht, he, _⟩ := hf _ (Or.inr (Or.inr ⟨⟨none, rfl⟩, rfl, rfl⟩))
  exact ⟨r, hr, he ▸ ht, hw⟩

/-! ## Cleanup: idempotence -/

/-- When `Cleanup` returns, it either skipped (no stored name) or ran its body. -/
theorem Cleanup_ok_cases (s : StepCreateFirewallRule) (env : Env) (state : StateBag)
    (r : CleanupResult) (h : Cleanup s env state = .ok r) :
    (r = { state := state, trace := [] } ∧
      (state "firewall_rule_name" = none ∨ state "firewall_rule_name" = some (.str ""))) ∨
    ∃ config name, Ready state config ∧ state "firewall_rule_name" = some (.str name) ∧
      name ≠ "" ∧ r = cleanupBody env state config name := by
  unfold Cleanup at h
  simp only [StateBag.GetOk, StateBag.Get] at h
  split at h
  · rename_i hn
    injection h with h
    exact Or.inl ⟨h.symm, Or.inl hn⟩
  · rename_i name hn
    split at h
    · rename_i he
      injection h with h
      exact Or.inl ⟨h.symm, Or.inr (he ▸ hn)⟩
    · rename_i he
      split at h
      · rename_i config hc
        split at h
        · rename_i d hd
          split at h
          · rename_i hu
            injection h with h
            exact Or.inr ⟨config, name, ⟨hc, ⟨d, hd⟩, hu⟩, hn, he, h.symm⟩
          · cases h
        · cases h
      · cases h
  · cases h

/-- `Cleanup` does nothing when there is no stored name. -/
theorem Cleanup_skip (s : StepCreateFirewallRule) (env : Env) (state : StateBag)
    (h : state "firewall_rule_name" = none ∨ state "firewall_rule_name" = some (.str "")) :
    Cleanup s env state = .ok { state := state, trace := [] } := by
  rcases h with h | h <;> simp [Cleanup, StateBag.GetOk, h]

/-- After `Cleanup` returns there is no stored name. -/
theorem Cleanup_ok_cleared (s : StepCreateFirewallRule) (env : Env) (state : StateBag)
    (r : CleanupResult) (h : Cleanup s env state = .ok r) :
    r.state "firewall_rule_name" = none ∨ r.state "firewall_rule_name" = some (.str "") := by
  rcases Cleanup_ok_cases s env state r h with ⟨hr, hn⟩ | ⟨config, name, _, _, _, hr⟩
  · subst hr; exact hn
  · subst hr; exact Or.inr (by simp [cleanupBody, StateBag.Put])

/-- When `Run` returns, the handles were present and it ran its body. -/
theorem Run_ok_cases (s : StepCreateFirewallRule) (env : Env) (state : StateBag)
    (r : RunResult) (h : Run s env state = .ok r) :
    ∃ config, Ready state config ∧ r = runBody s env state config := by
  unfold Run at h
  simp only [StateBag.Get] at h
  split at h
  · rename_i config hc
    split at h
    · rename_i d hd
      split at h
      · rename_i hu
        injection h with h
        exact ⟨config, ⟨hc, ⟨d, hd⟩, hu⟩, h.symm⟩
      · cases h
    · cases h
  · cases h

/-- C6: `Cleanup` is idempotent. For every context and every pair of
environments, two calls in succession leave the context that one call leaves;
whenever the first call returns, the second returns with an empty trace (no
driver request, no ui output) and an unchanged context. After a `Run` that
returned `ActionContinue`, the first `Cleanup` makes exactly one driver
request, the deletion of the name `Run` stored, and the second makes none. -/
theorem Cleanup_idempotent (s : StepCreateFirewallRule) (envR env1 env2 : Env)
    (state : StateBag) :
    (((Cleanup s env1 state).bind fun r1 => Cleanup s env2 r1.state).map
        CleanupResult.state = (Cleanup s env1 state).map CleanupResult.state) ∧
    (∀ r1, Cleanup s env1 state = .ok r1 →
      Cleanup s env2 r1.state = .ok { state := r1.state, trace := [] }) ∧
    (∀ r0, Run s envR state = .ok r0 → r0.action = .ActionContinue →
      ∃ name r1, r0.state "firewall_rule_name" = some (.str name) ∧
        Cleanup s env1 r0.state = .ok r1 ∧
        driverCalls r1.trace = [Event.deleteFirewallRule name] ∧
        Cleanup s env2 r1.state = .ok { state := r1.state, trace := [] } ∧
        driverCalls (r1.trace ++ []) = [Event.deleteFirewallRule name]) := by
  have second : ∀ st r1, Cleanup s env1 st = .ok r1 →
      Cleanup s env2 r1.state = .ok { state := r1.state, trace := [] } :=
    fun st r1 h1 => Cleanup_skip s env2 r1.state (Cleanup_ok_cleared s env1 st r1 h1)
  refine ⟨?_, second state, ?_⟩
  · cases h1 : Cleanup s env1 state with
    | error e => rfl
    | ok r1 =>
      show (Cleanup s env2 r1.state).map CleanupResult.state = _
      rw [second state r1 h1]
      rfl
  · intro r0 h0 hc
    obtain ⟨config, hready, hr0⟩ := Run_ok_cases s envR state r0 h0
    have hs : Succeeds envR := by
      rcases succeeds_or_fails envR "time out while waiting for firewall rule to create" with
        hs | ⟨cause, hf⟩
      · exact hs
      · rw [hr0, runBody_fails s envR state config cause hf] at hc
        cases hc
    rw [runBody_succeeds s envR state config hs] at hr0
    have hst : r0.state = state.Put "firewall_rule_name" (.str (ruleName config)) := by
      rw [hr0]
    have hname : r0.state "firewall_rule_name" = some (.str (ruleName config)) := by
      rw [hst]; simp [StateBag.Put]
    have hready0 : Ready r0.state config := by
      obtain ⟨h1, ⟨d, h2⟩, h3⟩ := hready
      rw [hst]
      refine ⟨?_, ⟨d, ?_⟩, ?_⟩ <;> simp [StateBag.Put, h1, h2, h3]
    have h1 := Cleanup_of_ready s env1 r0.state config (ruleName config) hready0 hname
      (ruleName_ne_empty config)
    have hcalls : driverCalls (cleanupBody env1 r0.state config (ruleName config)).trace =
        [Event.deleteFirewallRule (ruleName config)] := by
      simp only [cleanupBody]
      cases deleteAndWait config env1 <;> simp [driverCalls]
    exact ⟨ruleName config, _, hname, h1, hcalls, second r0.state _ h1, by simpa using hcalls⟩

theorem Cleanup_idempotent_witness :
    ∃ r0 r1, Run ⟨false⟩ ⟨.accepted none, .signal⟩ (baseContext sampleConfig) = .ok r0 ∧
      r0.action = .ActionContinue ∧
      r0.state "firewall_rule_name" = some (.str "img-temporary-packer") ∧
      Cleanup ⟨false⟩ ⟨.rejected "permission denied", .signal⟩ r0.state = .ok r1 ∧
      driverCalls r1.trace = [Event.deleteFirewallRule "img-temporary-packer"] ∧
      Cleanup ⟨false⟩ ⟨.accepted none, .signal⟩ r1.state =
        .ok { state := r1.state, trace := [] } := by
  have h0 := Run_of_ready ⟨false⟩ ⟨.accepted none, .signal⟩ (baseContext sampleConfig)
    sampleConfig (ready_baseContext _)
  have ha : (runBody ⟨false⟩ ⟨.accepted none, .signal⟩ (baseContext sampleConfig)
      sampleConfig).action = .ActionContinue := by
    rw [runBody_succeeds _ _ _ _ ⟨rfl, rfl⟩]
  obtain ⟨name, r1, hn, h1, hd, h2, _⟩ :=
    (Cleanup_idempotent ⟨false⟩ ⟨.accepted none, .signal⟩
      ⟨.rejected "permission denied", .signal⟩ ⟨.accepted none, .signal⟩
      (baseContext sampleConfig)).2.2 _ h0 ha
  have hname : (runBody ⟨false⟩ ⟨.accepted none, .signal⟩ (baseContext sampleConfig)
      sampleConfig).state "firewall_rule_name" = some (.str "img-temporary-packer") := by
    rw [runBody_succeeds _ _ _ _ ⟨rfl, rfl⟩]
    simp [StateBag.Put, ruleName, sampleConfig]
  have he : name = "img-temporary-packer" := by
    rw [hname] at hn
    injection hn with hn
    injection hn with hn
    exact hn.symm
  subst he
  exact ⟨_, r1, h0, ha, hname, h1, hd, h2⟩

/-! ## Run: the timer fires first -/

theorem occurs_timeout :
    Occurs "time out while waiting"
      ("Error creating firewall rule: " ++
        "time out while waiting for firewall rule to create") :=
  ⟨"Error creating firewall rule: ".data, " for firewall rule to create".data, by decide⟩

/-- C8: in a context holding the configuration, the driver and the ui, with
no stored rule name (the key absent or empty), when the driver accepts the
create request and the timer fires before the channel is read, `Run` returns
`ActionHalt`; the error stored under "error" is "Error creating firewall
rule: " followed by the synthetic "time out while waiting for firewall rule
to create", the same text whatever the channel would have yielded; and
"firewall_rule_name" is not written, so there is still no stored name. -/
theorem Run_timeout_halts (s : StepCreateFirewallRule) (env : Env) (state : StateBag)
    (config : Config) (hready : Ready state config)
    (hunset : state "firewall_rule_name" = none ∨
      state "firewall_rule_name" = some (.str ""))
    (haccepted : ∃ errCh, env.reply = .accepted errCh) (htimer : env.arm = .timer) :
    ∃ r, Run s env state = .ok r ∧
      r.action = .ActionHalt ∧
      r.state "error" = some (.err ("Error creating firewall rule: " ++
        "time out while waiting for firewall rule to create")) ∧
      Occurs "time out while waiting"
        ("Error creating firewall rule: " ++
          "time out while waiting for firewall rule to create") ∧
      "firewall_rule_name" ∉ keysWritten r.trace ∧
      (r.state "firewall_rule_name" = none ∨
        r.state "firewall_rule_name" = some (.str "")) := by
  have hf : FailsWith env "time out while waiting for firewall rule to create"
      "time out while waiting for firewall rule to create" :=
    Or.inr (Or.inr ⟨haccepted, htimer, rfl⟩)
  refine ⟨_, Run_of_ready s env state config hready, ?_⟩
  rw [runBody_fails s env state config _ hf]
  refine ⟨rfl, ?_, occurs_timeout, ?_, ?_⟩
  · simp [StateBag.Put]
  · cases env.reply <;> simp [keysWritten]
  · rcases hunset with h | h
    · exact Or.inl (by simp [StateBag.Put, h])
    · exact Or.inr (by simp [StateBag.Put, h])

theorem Run_timeout_halts_witness :
    Ready (baseContext sampleConfig) sampleConfig ∧
    baseContext sampleConfig "firewall_rule_name" = none ∧
    ∃ r, Run ⟨false⟩ ⟨.accepted (some "late provider error"), .timer⟩
        (baseContext sampleConfig) = .ok r ∧
      r.action = .ActionHalt ∧
      r.state "error" = some (.err ("Error creating firewall rule: " ++
        "time out while waiting for firewall rule to create")) ∧
      (r.state "firewall_rule_name" = none ∨
        r.state "firewall_rule_name" = some (.str "")) := by
  refine ⟨ready_baseContext _, rfl, ?_⟩
  obtain ⟨r, hr, ha, he, _, _, hn⟩ :=
    Run_timeout_halts ⟨false⟩ ⟨.accepted (some "late provider error"), .timer⟩
      (baseContext sampleConfig) sampleConfig (ready_baseContext _) (Or.inl rfl)
      ⟨_, rfl⟩ rfl
  exact ⟨r, hr, ha, he, hn⟩

/-! ## Run: what the context must hold -/

/-- C9, as stated, fails: the context `contextWithoutUi` holds a
configuration under "config" and a driver under "driver", and `Run` stops at
the type assertion on `state.Get("ui")` instead of returning an action. -/
theorem Run_without_ui_panics :
    contextWithoutUi "config" = some (.config sampleConfig) ∧
    contextWithoutUi "driver" = some (.driver 0) ∧
    Run ⟨false⟩ ⟨.accepted none, .signal⟩ contextWithoutUi = .error .uiAssertion ∧
    ¬ ∃ r, Run ⟨false⟩ ⟨.accepted none, .signal⟩ contextWithoutUi = .ok r := by
  have h : Run ⟨false⟩ ⟨.accepted none, .signal⟩ contextWithoutUi = .error .uiAssertion := by
    simp [Run, StateBag.Get, contextWithoutUi, StateBag.Put, StateBag.empty]
  refine ⟨by simp [contextWithoutUi, StateBag.Put], by simp [contextWithoutUi, StateBag.Put],
    h, ?_⟩
  rintro ⟨r, hr⟩
  rw [h] at hr
  cases hr

/-- C9, amended: for every context that holds a configuration under "config",
a driver under "driver" and a ui under "ui", whatever else it holds, and
whatever the environment does, `Run` completes without a failed type
assertion and returns `ActionContinue` or `ActionHalt`. -/
theorem Run_returns_of_ready (s : StepCreateFirewallRule) (env : Env) (state : StateBag)
    (config : Config) (hready : Ready state config) :
    ∃ r, Run s env state = .ok r ∧
      (r.action = .ActionContinue ∨ r.action = .ActionHalt) := by
  refine ⟨_, Run_of_ready s env state config hready, ?_⟩
  rcases succeeds_or_fails env "time out while waiting for firewall rule to create" with
    hs | ⟨cause, hf⟩
  · rw [runBody_succeeds s env state config hs]; exact Or.inl rfl
  · rw [runBody_fails s env state config cause hf]; exact Or.inr rfl

theorem Run_returns_of_ready_witness :
    Ready ((baseContext sampleConfig).Put "unrelated" (.other 7)) sampleConfig ∧
    ∃ r, Run ⟨true⟩ ⟨.rejected "bad request", .timer⟩
        ((baseContext sampleConfig).Put "unrelated" (.other 7)) = .ok r ∧
      (r.action = .ActionContinue ∨ r.action = .ActionHalt) :=
  have h : Ready ((baseContext sampleConfig).Put "unrelated" (.other 7)) sampleConfig := by
    refine ⟨?_, ⟨0, ?_⟩, ?_⟩ <;> simp [baseContext, StateBag.Put, StateBag.empty]
  ⟨h, Run_returns_of_ready ⟨true⟩ ⟨.rejected "bad request", .timer⟩ _ sampleConfig h⟩

/-! ## Run: the debug confirmation -/

theorem created_ne_confirmation (n : String) :
    "Firewall rule has been created!" ≠ "Firewall rule: " ++ n ++ " created" := by
  intro h
  have hd := congrArg String.data h
  simp [String.data_append] at hd

theorem waiting_ne_confirmation (n : String) :
    "Waiting for creation operation to complete..." ≠
      "Firewall rule: " ++ n ++ " created" := by
  intro h
  have hd := congrArg String.data h
  simp [String.data_append] at hd

/-- C10: in a context holding the configuration, the driver and the ui, when
`Run` returns `ActionContinue` the message "Firewall rule: <name> created",
with <name> the instance name followed by "-temporary-packer", is emitted
exactly when `Debug` is set, and then once; the name is never empty, so the
guard on it never suppresses the message. When `Run` returns `ActionHalt`
the message is not emitted. -/
theorem Run_debug_confirmation (s : StepCreateFirewallRule) (env : Env) (state : StateBag)
    (config : Config) (hready : Ready state config) :
    ∃ r, Run s env state = .ok r ∧
      config.InstanceName ++ "-temporary-packer" ≠ "" ∧
      (r.action = .ActionContinue →
        (Event.message ("Firewall rule: " ++ (config.InstanceName ++ "-temporary-packer") ++
            " created") ∈ r.trace ↔ s.Debug = true) ∧
        (r.trace.count (Event.message ("Firewall rule: " ++
            (config.InstanceName ++ "-temporary-packer") ++ " created")) ≤ 1)) ∧
      (r.action = .ActionHalt →
        Event.message ("Firewall rule: " ++ (config.InstanceName ++ "-temporary-packer") ++
          " created") ∉ r.trace) := by
  refine ⟨_, Run_of_ready s env state config hready, ruleName_ne_empty config, ?_⟩
  have hw := waiting_ne_confirmation (config.InstanceName ++ "-temporary-packer")
  have hc := created_ne_confirmation (config.InstanceName ++ "-temporary-packer")
  rcases succeeds_or_fails env "time out while waiting for firewall rule to create" with
    hs | ⟨cause, hf⟩
  · rw [runBody_succeeds s env state config hs]
    refine ⟨fun _ => ?_, fun h => by cases h⟩
    cases s.Debug <;> simp [ruleName, hw.symm, hc.symm, List.count_cons]
  · rw [runBody_fails s env state config cause hf]
    refine ⟨fun h => (by cases h), fun _ => ?_⟩
    cases env.reply <;> simp [hw.symm]

theorem Run_debug_confirmation_witness :
    Ready (baseContext { sampleConfig with InstanceName := "" })
      { sampleConfig with InstanceName := "" } ∧
    ∃ r, Run ⟨true⟩ ⟨.accepted none, .signal⟩
        (baseContext { sampleConfig with InstanceName := "" }) = .ok r ∧
      r.action = .ActionContinue ∧
      Event.message ("Firewall rule: " ++ ("" ++ "-temporary-packer") ++ " created") ∈
        r.trace := by
  refine ⟨ready_baseContext _, ?_⟩
  obtain ⟨r, hr, _, hc, _⟩ :=
    Run_debug_confirmation ⟨true⟩ ⟨.accepted none, .signal⟩
      (baseContext { sampleConfig with InstanceName := "" })
      { sampleConfig with InstanceName := "" } (ready_baseContext _)
  have hcont : r.action = .ActionContinue := by
    have h0 := Run_of_ready ⟨true⟩ ⟨.accepted none, .signal⟩
      (baseContext { sampleConfig with InstanceName := "" })
      { sampleConfig with InstanceName := "" } (ready_baseContext _)
    rw [h0] at hr
    injection hr with hr
    rw [← hr, runBody_succeeds _ _ _ _ ⟨rfl, rfl⟩]
  exact ⟨r, hr, hcont, ((hc hcont).1).2 rfl⟩

end Googlecompute
